import Mathlib

/-!
Verification of the scheduling and capacity-control core of the club
management data layer (`app/demo.py`).

The Python code talks to a PostgreSQL store.  The embedding models the
relevant tables as lists of rows inside a `DB` state, and each operation
as a pure function `DB → outcome × DB`, where the outcome records both
the value returned to the caller and which diagnostic branch was taken
(the Python functions print a distinct message per branch).  PostgreSQL
range semantics are modelled directly: `tstzrange(s, e, '[)')` raises
when `s > e`, normalises to the empty range when `s = e`, and the `&&`
overlap operator never matches an empty range.
-/

namespace ClubMgmt

/-- Half-open time range `[start, stop)`; timestamps are modelled as
integers (e.g. minutes).  Models a PostgreSQL `tstzrange(_, _, '[)')`
value with finite bounds. -/
structure TRange where
  start : Int
  stop : Int
deriving DecidableEq

/-- A PostgreSQL range with `stop ≤ start` is the empty range. -/
def TRange.isEmpty (r : TRange) : Bool :=
  decide (r.stop ≤ r.start)

/-- The `&&` range-overlap operator of the store: two ranges overlap iff
both are nonempty and `a.start < b.stop AND b.start < a.stop`. -/
def rangeOverlap (a b : TRange) : Bool :=
  !a.isEmpty && !b.isEmpty && decide (a.start < b.stop) && decide (b.start < a.stop)

/-- Row of the `members` table. -/
structure MemberRow where
  id : Nat
  email : String
  full_name : String
  date_of_birth : Option String
  gender : Option String
  phone : Option String
deriving DecidableEq

/-- Row of the `trainer_availability` table. -/
structure AvailRow where
  id : Nat
  trainer_id : Nat
  avail_range : TRange
  note : Option String
deriving DecidableEq

/-- Row of the `classes` table (only the column the core reads). -/
structure ClassRow where
  id : Nat
  default_capacity : Nat
deriving DecidableEq

/-- Row of the `class_sessions` table. -/
structure ClassSessionRow where
  id : Nat
  class_id : Nat
  trainer_id : Nat
  room_id : Option Nat
  session_range : TRange
  capacity : Option Nat
deriving DecidableEq

/-- Row of the `personal_sessions` table (columns the conflict rules read). -/
structure PersonalSessionRow where
  id : Nat
  member_id : Nat
  trainer_id : Nat
  room_id : Option Nat
  session_range : TRange
deriving DecidableEq

/-- Row of the `class_registrations` table. -/
structure RegistrationRow where
  id : Nat
  class_session_id : Nat
  member_id : Nat
deriving DecidableEq

/-- The store state: the tables the core reads or writes, plus the id
sequence used for `RETURNING id`. -/
structure DB where
  members : List MemberRow
  trainer_availability : List AvailRow
  classes : List ClassRow
  class_sessions : List ClassSessionRow
  personal_sessions : List PersonalSessionRow
  class_registrations : List RegistrationRow
  next_id : Nat
deriving DecidableEq

/-- Outcome of `register_member`; the Python function returns the member
id both when the email already exists and after a fresh insert. -/
def register_member (db : DB) (email full_name : String)
    (date_of_birth gender phone : Option String) : Nat × DB :=
  match db.members.find? (fun m => m.email == email) with
  | some m => (m.id, db)
  | none =>
    let member_id := db.next_id
    (member_id,
     { db with
         members := db.members ++ [⟨member_id, email, full_name, date_of_birth, gender, phone⟩],
         next_id := member_id + 1 })

/-- Branch taken by `set_trainer_availability`.  `rangeError` models the
uncaught `psycopg2` exception raised by `tstzrange` when `start > end`
(the function has no try/except); the Python return value otherwise is
`False` for `overlapDetected` and `True` for `inserted`. -/
inductive AvailOutcome where
  | overlapDetected
  | inserted (id : Nat)
  | rangeError
deriving DecidableEq

/-- Value the Python caller receives: `none` when the exception
propagates, otherwise the returned boolean. -/
def availReturn : AvailOutcome → Option Bool
  | AvailOutcome.overlapDetected => some false
  | AvailOutcome.inserted _ => some true
  | AvailOutcome.rangeError => none

/-- Embeds `set_trainer_availability(conn, trainer_id, start_ts, end_ts, note)`:
query existing availability of the trainer overlapping
`tstzrange(start_ts, end_ts, '[)')`; on a hit print and return `False`
without writing, otherwise insert the new row and return `True`. -/
def set_trainer_availability (db : DB) (trainer_id : Nat) (start_ts end_ts : Int)
    (note : Option String) : AvailOutcome × DB :=
  if end_ts < start_ts then
    (AvailOutcome.rangeError, db)
  else if db.trainer_availability.any
      (fun a => a.trainer_id == trainer_id && rangeOverlap a.avail_range ⟨start_ts, end_ts⟩) then
    (AvailOutcome.overlapDetected, db)
  else
    let avail_id := db.next_id
    (AvailOutcome.inserted avail_id,
     { db with
         trainer_availability :=
           db.trainer_availability ++ [⟨avail_id, trainer_id, ⟨start_ts, end_ts⟩, note⟩],
         next_id := avail_id + 1 })

/-- Modelled from the spec: the storage schema (DDL is not under `src/`)
enforces trainer/room overlap exclusion spanning both personal and class
sessions as a backstop; an `INSERT`/`UPDATE` on `class_sessions` whose
range overlaps another session of the same trainer, or of the same room
when one is given, is rejected by the store (a `psycopg2.Error`).  On
`UPDATE` the constraint checks the new row against all rows other than
the row being updated (`excl`). -/
def sessionConflict (db : DB) (excl : Option Nat) (trainer_id : Nat)
    (room_id : Option Nat) (r : TRange) : Bool :=
  db.personal_sessions.any (fun ps =>
      (ps.trainer_id == trainer_id || (room_id.isSome && ps.room_id == room_id))
        && rangeOverlap ps.session_range r)
  || db.class_sessions.any (fun cs =>
      excl != some cs.id
        && (cs.trainer_id == trainer_id || (room_id.isSome && cs.room_id == room_id))
        && rangeOverlap cs.session_range r)

/-- Branch taken by `create_or_update_class_session`.  The Python return
value is the session id for `created`/`updated` and `None` for both
`notFound` (rowcount 0 on update) and `dbError` (caught
`psycopg2.Error`, e.g. a range or exclusion-constraint failure). -/
inductive SessionOutcome where
  | created (id : Nat)
  | updated (id : Nat)
  | notFound
  | dbError
deriving DecidableEq

/-- Value the Python caller receives from `create_or_update_class_session`. -/
def sessionReturn : SessionOutcome → Option Nat
  | SessionOutcome.created i => some i
  | SessionOutcome.updated i => some i
  | SessionOutcome.notFound => none
  | SessionOutcome.dbError => none

/-- Embeds `create_or_update_class_session(conn, class_id, trainer_id, room_id,
start_ts, end_ts, capacity, session_id)`: with `session_id = none`
insert a new row, with `session_id = some sid` update that row in place
(`rowcount 0` → rollback and `None`).  Any storage error — the range
constructor failing on `end < start`, or the spec-modelled overlap
exclusion constraint — is caught, rolled back, and reported as `None`. -/
def create_or_update_class_session (db : DB) (class_id trainer_id : Nat)
    (room_id : Option Nat) (start_ts end_ts : Int) (capacity : Option Nat)
    (session_id : Option Nat) : SessionOutcome × DB :=
  match session_id with
  | none =>
    if end_ts < start_ts then
      (SessionOutcome.dbError, db)
    else if sessionConflict db none trainer_id room_id ⟨start_ts, end_ts⟩ then
      (SessionOutcome.dbError, db)
    else
      let new_id := db.next_id
      (SessionOutcome.created new_id,
       { db with
           class_sessions := db.class_sessions ++
             [⟨new_id, class_id, trainer_id, room_id, ⟨start_ts, end_ts⟩, capacity⟩],
           next_id := new_id + 1 })
  | some sid =>
    match db.class_sessions.find? (fun cs => cs.id == sid) with
    | none => (SessionOutcome.notFound, db)
    | some _ =>
      if end_ts < start_ts then
        (SessionOutcome.dbError, db)
      else if sessionConflict db (some sid) trainer_id room_id ⟨start_ts, end_ts⟩ then
        (SessionOutcome.dbError, db)
      else
        (SessionOutcome.updated sid,
         { db with
             class_sessions := db.class_sessions.map (fun cs =>
               if cs.id = sid then
                 ⟨sid, class_id, trainer_id, room_id, ⟨start_ts, end_ts⟩, capacity⟩
               else cs) })

/-- Number of existing registrations of a class session (the
`COUNT(cr.id)` of the capacity query). -/
def regCount (db : DB) (sid : Nat) : Nat :=
  (db.class_registrations.filter (fun r => r.class_session_id == sid)).length

/-- Effective capacity `COALESCE(cs.capacity, c.default_capacity)`. -/
def effCap (cs : ClassSessionRow) (c : ClassRow) : Nat :=
  cs.capacity.getD c.default_capacity

/-- Branch taken by `register_member_for_class`.  The Python return
value is `True` only for `registered`; every failure branch returns
`False` and differs only in the printed message. -/
inductive RegOutcome where
  | notFound
  | sessionFull (current_count max_capacity : Nat)
  | alreadyRegistered
  | persistenceError
  | registered (id : Nat)
deriving DecidableEq

/-- Value the Python caller receives from `register_member_for_class`. -/
def regReturn : RegOutcome → Bool
  | RegOutcome.registered _ => true
  | _ => false

/-- Embeds `register_member_for_class(conn, class_session_id, member_id)`: look
up the session joined with its class (missing row → `False`), compare
`current_count` with the effective capacity (full → `False`, printing
current/max), then insert; a `UniqueViolation` (member already
registered) and any other `psycopg2.Error` (e.g. the `member_id`
foreign key failing) are rolled back and return `False`. -/
def register_member_for_class (db : DB) (class_session_id member_id : Nat) :
    RegOutcome × DB :=
  match db.class_sessions.find? (fun cs => cs.id == class_session_id) with
  | none => (RegOutcome.notFound, db)
  | some cs =>
    match db.classes.find? (fun c => c.id == cs.class_id) with
    | none => (RegOutcome.notFound, db)
    | some c =>
      let max_capacity := effCap cs c
      let current_count := regCount db class_session_id
      if max_capacity ≤ current_count then
        (RegOutcome.sessionFull current_count max_capacity, db)
      else if db.class_registrations.any
          (fun r => r.class_session_id == class_session_id && r.member_id == member_id) then
        (RegOutcome.alreadyRegistered, db)
      else if db.members.all (fun m => !(m.id == member_id)) then
        (RegOutcome.persistenceError, db)
      else
        let reg_id := db.next_id
        (RegOutcome.registered reg_id,
         { db with
             class_registrations :=
               db.class_registrations ++ [⟨reg_id, class_session_id, member_id⟩],
             next_id := reg_id + 1 })

/-- The committed-state invariant claimed by the spec: every class
session has at most `effective_capacity` registrations (sessions whose
owning class row is missing have no effective capacity and are exempt). -/
def capacityInvariant (db : DB) : Bool :=
  db.class_sessions.all (fun cs =>
    match db.classes.find? (fun k => k.id == cs.class_id) with
    | some c => decide (regCount db cs.id ≤ effCap cs c)
    | none => true)

/-- Structural well-formedness the real store guarantees through primary
keys, foreign keys and the id sequence: session ids are unique, every
registration references an existing session, and all session ids are
below the id sequence. -/
def dbWellFormed (db : DB) : Prop :=
  (db.class_sessions.map (fun cs => cs.id)).Nodup
  ∧ (∀ r ∈ db.class_registrations, ∃ cs ∈ db.class_sessions, cs.id = r.class_session_id)
  ∧ (∀ cs ∈ db.class_sessions, cs.id < db.next_id)

instance dbWellFormedDec (db : DB) : Decidable (dbWellFormed db) := by
  unfold dbWellFormed
  infer_instance

/-- An empty store whose id sequence starts at 1. -/
def availDB : DB :=
  { members := [], trainer_availability := [], classes := [], class_sessions := [],
    personal_sessions := [], class_registrations := [], next_id := 1 }

/-- Store holding one availability window `[540, 600)` for trainer 1. -/
def availDB1 : DB :=
  { availDB with trainer_availability := [⟨1, 1, ⟨540, 600⟩, none⟩], next_id := 2 }

/-- Store with one member row. -/
def memberDB : DB :=
  { members := [⟨1, "ana@club", "Ana", none, none, none⟩], trainer_availability := [],
    classes := [], class_sessions := [], personal_sessions := [], class_registrations := [],
    next_id := 2 }

/-- Store for registration scenarios: class 1 defaults to capacity 2;
session 1 (capacity 1) holds member 1 and is full; session 2
(capacity 3) holds member 1 with room to spare. -/
def regDB : DB :=
  { members := [⟨1, "ana@club", "Ana", none, none, none⟩,
                ⟨2, "bo@club", "Bo", none, none, none⟩,
                ⟨3, "cy@club", "Cy", none, none, none⟩],
    trainer_availability := [],
    classes := [⟨1, 2⟩],
    class_sessions := [⟨1, 1, 1, some 1, ⟨540, 600⟩, some 1⟩,
                       ⟨2, 1, 1, some 2, ⟨660, 720⟩, some 3⟩],
    personal_sessions := [],
    class_registrations := [⟨4, 1, 1⟩, ⟨5, 2, 1⟩],
    next_id := 10 }

/-- Store for booking scenarios: class session 1 (trainer 1, room 1,
`[540, 600)`) and a personal session of trainer 2 in room 2 at the same
time. -/
def schedDB : DB :=
  { members := [], trainer_availability := [], classes := [⟨1, 5⟩],
    class_sessions := [⟨1, 1, 1, some 1, ⟨540, 600⟩, none⟩],
    personal_sessions := [⟨2, 1, 2, some 2, ⟨540, 600⟩⟩],
    class_registrations := [], next_id := 3 }

/-- Empty schedule with two members and one class, used to build a
reachable committed state for the capacity invariant. -/
def capDB0 : DB :=
  { members := [⟨1, "ana@club", "Ana", none, none, none⟩,
                ⟨2, "bo@club", "Bo", none, none, none⟩],
    trainer_availability := [], classes := [⟨1, 5⟩], class_sessions := [],
    personal_sessions := [], class_registrations := [], next_id := 3 }

/-- State `capDB0` after creating class session 3 with capacity 2. -/
def capDB1 : DB := (create_or_update_class_session capDB0 1 1 (some 1) 540 600 (some 2) none).2

/-- State `capDB1` after registering member 1 into session 3. -/
def capDB2 : DB := (register_member_for_class capDB1 3 1).2

/-- State `capDB2` after registering member 2 into session 3 (now 2/2). -/
def capDB3 : DB := (register_member_for_class capDB2 3 2).2

/-- A range with `e ≤ s` is empty and overlaps nothing. -/
theorem rangeOverlap_empty_right (a : TRange) (s e : Int) (h : e ≤ s) :
    rangeOverlap a ⟨s, e⟩ = false := by
  simp [rangeOverlap, TRange.isEmpty, h]

/-- An overlap hit implies the right-hand range is nonempty. -/
theorem rangeOverlap_valid_right {a b : TRange} (h : rangeOverlap a b = true) :
    b.start < b.stop := by
  simp only [rangeOverlap, TRange.isEmpty, Bool.and_eq_true, Bool.not_eq_true',
    decide_eq_false_iff_not, decide_eq_true_eq] at h
  omega

/-- A detected session conflict implies the requested range is valid
(nonempty), since empty ranges overlap nothing. -/
theorem sessionConflict_valid {db : DB} {excl : Option Nat} {t : Nat}
    {rm : Option Nat} {s e : Int}
    (h : sessionConflict db excl t rm ⟨s, e⟩ = true) : s < e := by
  simp only [sessionConflict, Bool.or_eq_true, List.any_eq_true, Bool.and_eq_true] at h
  rcases h with ⟨ps, hmem, hpred⟩ | ⟨cs, hmem, hpred⟩ <;>
    exact rangeOverlap_valid_right hpred.2

/-- C7: the overlap predicate of the interval model is symmetric on all
ranges, and reflexive on every valid range (`start < stop`). -/
theorem rangeOverlap_symm_refl :
    (∀ a b : TRange, rangeOverlap a b = rangeOverlap b a)
    ∧ (∀ a : TRange, a.start < a.stop → rangeOverlap a a = true) := by
  constructor
  · intro a b
    apply Bool.eq_iff_iff.mpr
    simp only [rangeOverlap, TRange.isEmpty, Bool.and_eq_true, Bool.not_eq_true',
      decide_eq_false_iff_not, decide_eq_true_eq]
    omega
  · intro a h
    simp only [rangeOverlap, TRange.isEmpty, Bool.and_eq_true, Bool.not_eq_true',
      decide_eq_false_iff_not, decide_eq_true_eq]
    omega

/-- Witness for C7 at concrete ranges. -/
theorem rangeOverlap_symm_refl_wit :
    rangeOverlap ⟨540, 600⟩ ⟨570, 630⟩ = rangeOverlap ⟨570, 630⟩ ⟨540, 600⟩
    ∧ rangeOverlap ⟨540, 600⟩ ⟨540, 600⟩ = true :=
  ⟨rangeOverlap_symm_refl.1 ⟨540, 600⟩ ⟨570, 630⟩,
   rangeOverlap_symm_refl.2 ⟨540, 600⟩ (by decide)⟩

/-- C8: half-open `[start, end)` semantics — `[540, 600)` and
`[600, 660)` for the same trainer do not conflict (the second
declaration succeeds), while `[540, 601)` and `[600, 660)` do. -/
theorem half_open_boundary :
    rangeOverlap ⟨540, 600⟩ ⟨600, 660⟩ = false
    ∧ rangeOverlap ⟨540, 601⟩ ⟨600, 660⟩ = true
    ∧ (set_trainer_availability (set_trainer_availability availDB 1 540 600 none).2
        1 600 660 none).1 = AvailOutcome.inserted 2
    ∧ (set_trainer_availability (set_trainer_availability availDB 1 540 601 none).2
        1 600 660 none).1 = AvailOutcome.overlapDetected := by
  decide

/-- C2 counterexample: with `start = end` (so `start ≥ end`),
`set_trainer_availability` does not fail with any InvalidRange error —
it performs its I/O and writes an empty-range row, returning True. -/
theorem no_invalid_range_check_cex :
    (set_trainer_availability availDB 1 600 600 none).1 = AvailOutcome.inserted 1
    ∧ (set_trainer_availability availDB 1 600 600 none).2.trainer_availability
        = [⟨1, 1, ⟨600, 600⟩, none⟩] := by
  decide

/-- C3 counterexample: two successful declarations create rows 1 and 2,
yet the caller receives the same value (True) both times — the function
returns a success boolean, not the new row's identifier. -/
theorem availability_returns_bool_cex :
    (set_trainer_availability availDB 1 540 600 none).1 = AvailOutcome.inserted 1
    ∧ (set_trainer_availability (set_trainer_availability availDB 1 540 600 none).2
        1 660 720 none).1 = AvailOutcome.inserted 2
    ∧ availReturn (set_trainer_availability availDB 1 540 600 none).1
        = availReturn (set_trainer_availability (set_trainer_availability availDB 1 540 600 none).2
            1 660 720 none).1 := by
  decide

/-- C5 counterexample: member 1 is already registered for session 1,
which is at capacity (1/1); the duplicate attempt fails with
SessionFull, not AlreadyRegistered, because the capacity check runs
first. -/
theorem duplicate_on_full_session_cex :
    regDB.class_registrations.any (fun r => r.class_session_id == 1 && r.member_id == 1) = true
    ∧ register_member_for_class regDB 1 1 = (RegOutcome.sessionFull 1 1, regDB)
    ∧ (register_member_for_class regDB 1 1).1 ≠ RegOutcome.alreadyRegistered := by
  decide

/-- C9 counterexample: two distinct failure causes — session not found
versus session full — return the same value (False) to the caller. -/
theorem failure_kinds_same_return_cex :
    (register_member_for_class regDB 99 1).1 = RegOutcome.notFound
    ∧ (register_member_for_class regDB 1 2).1 = RegOutcome.sessionFull 1 1
    ∧ regReturn (register_member_for_class regDB 99 1).1
        = regReturn (register_member_for_class regDB 1 2).1 := by
  decide

/-- C9 amended: failure causes are distinguishable only in the printed
diagnostics (the branches taken are pairwise distinct), not in the value
returned to the caller: `register_member_for_class` returns False for
NotFound, SessionFull and AlreadyRegistered alike, and
`create_or_update_class_session` returns None both for a missing
session and for a storage conflict. -/
theorem failure_kinds_distinguishable_only_in_diagnostics :
    (register_member_for_class regDB 99 1).1 = RegOutcome.notFound
    ∧ (register_member_for_class regDB 1 2).1 = RegOutcome.sessionFull 1 1
    ∧ (register_member_for_class regDB 2 1).1 = RegOutcome.alreadyRegistered
    ∧ regReturn RegOutcome.notFound = false
    ∧ regReturn (RegOutcome.sessionFull 1 1) = false
    ∧ regReturn RegOutcome.alreadyRegistered = false
    ∧ (create_or_update_class_session regDB 1 1 none 540 600 none (some 99)).1
        = SessionOutcome.notFound
    ∧ (create_or_update_class_session regDB 1 1 none 550 560 none none).1
        = SessionOutcome.dbError
    ∧ sessionReturn SessionOutcome.notFound = sessionReturn SessionOutcome.dbError := by
  decide

/-- C2 amended: no operation validates `start ≥ end` before I/O and no
InvalidRange failure exists.  When `start > end` the storage range
constructor fails: `set_trainer_availability` propagates the exception
and `create_or_update_class_session` (insert mode) returns None, in
both cases without writing.  When `start = end` the operations do not
fail at all: `set_trainer_availability` inserts an empty-range
availability row and returns True. -/
theorem invalid_range_storage_behavior (db : DB) (t class_id trainer_id : Nat)
    (room_id : Option Nat) (s e : Int) (note : Option String) (cap : Option Nat) :
    (e < s →
      set_trainer_availability db t s e note = (AvailOutcome.rangeError, db)
      ∧ create_or_update_class_session db class_id trainer_id room_id s e cap none
          = (SessionOutcome.dbError, db))
    ∧ set_trainer_availability db t s s note
        = (AvailOutcome.inserted db.next_id,
           { db with
               trainer_availability :=
                 db.trainer_availability ++ [⟨db.next_id, t, ⟨s, s⟩, note⟩],
               next_id := db.next_id + 1 }) := by
  constructor
  · intro h
    constructor
    · simp [set_trainer_availability, h]
    · simp [create_or_update_class_session, h]
  · have hany : db.trainer_availability.any
        (fun a => a.trainer_id == t && rangeOverlap a.avail_range ⟨s, s⟩) = false := by
      rw [List.any_eq_false]
      intro a _
      simp [rangeOverlap_empty_right a.avail_range s s le_rfl]
    simp [set_trainer_availability, hany]

/-- Witness for C2 amended at concrete inputs. -/
theorem invalid_range_storage_behavior_wit :
    set_trainer_availability availDB 1 700 600 none = (AvailOutcome.rangeError, availDB)
    ∧ create_or_update_class_session availDB 1 1 none 700 600 none none
        = (SessionOutcome.dbError, availDB)
    ∧ (set_trainer_availability availDB 1 600 600 none).1 = AvailOutcome.inserted 1 := by
  have h := invalid_range_storage_behavior availDB 1 1 1 none 700 600 none none
  have h2 := invalid_range_storage_behavior availDB 1 1 1 none 600 600 none none
  refine ⟨(h.1 (by decide)).1, (h.1 (by decide)).2, ?_⟩
  rw [h2.2]
  rfl

/-- C3 amended: declaring availability on a valid range fails (returning
False, writing nothing) when an existing window of the same trainer
overlaps, and otherwise inserts exactly one new row and returns True —
the success indicator, not the new row's identifier. -/
theorem declare_availability_overlap_guard (db : DB) (t : Nat) (s e : Int)
    (note : Option String) (h : s < e) :
    (db.trainer_availability.any
        (fun a => a.trainer_id == t && rangeOverlap a.avail_range ⟨s, e⟩) = true →
      set_trainer_availability db t s e note = (AvailOutcome.overlapDetected, db))
    ∧ (db.trainer_availability.any
        (fun a => a.trainer_id == t && rangeOverlap a.avail_range ⟨s, e⟩) = false →
      set_trainer_availability db t s e note
        = (AvailOutcome.inserted db.next_id,
           { db with
               trainer_availability :=
                 db.trainer_availability ++ [⟨db.next_id, t, ⟨s, e⟩, note⟩],
               next_id := db.next_id + 1 })
      ∧ availReturn (set_trainer_availability db t s e note).1 = some true) := by
  have hns : ¬ e < s := by omega
  constructor
  · intro hov
    simp [set_trainer_availability, hns, hov]
  · intro hov
    constructor
    · simp [set_trainer_availability, hns, hov]
    · simp [set_trainer_availability, hns, hov, availReturn]

/-- Witness for C3 amended at concrete inputs. -/
theorem declare_availability_overlap_guard_wit :
    set_trainer_availability availDB1 1 570 630 none = (AvailOutcome.overlapDetected, availDB1)
    ∧ (set_trainer_availability availDB1 1 600 660 none).1 = AvailOutcome.inserted 2 := by
  have h := declare_availability_overlap_guard availDB1 1 570 630 none (by decide)
  have h2 := declare_availability_overlap_guard availDB1 1 600 660 none (by decide)
  refine ⟨h.1 (by decide), ?_⟩
  rw [(h2.2 (by decide)).1]
  rfl

/-- C4: registration fails with NotFound (no write) when the session is
missing, and with SessionFull — reporting current and maximum counts,
writing nothing — when the current count has reached the effective
capacity (the session's own capacity, else the class default). -/
theorem register_capacity_guard (db : DB) (sid mid : Nat) :
    (db.class_sessions.find? (fun cs => cs.id == sid) = none →
      register_member_for_class db sid mid = (RegOutcome.notFound, db))
    ∧ (∀ cs c, db.class_sessions.find? (fun x => x.id == sid) = some cs →
        db.classes.find? (fun k => k.id == cs.class_id) = some c →
        effCap cs c ≤ regCount db sid →
        register_member_for_class db sid mid
          = (RegOutcome.sessionFull (regCount db sid) (effCap cs c), db)) := by
  constructor
  · intro h
    simp [register_member_for_class, h]
  · intro cs c hcs hc hcap
    simp [register_member_for_class, hcs, hc, hcap]

/-- Witness for C4 at concrete inputs. -/
theorem register_capacity_guard_wit :
    register_member_for_class regDB 99 1 = (RegOutcome.notFound, regDB)
    ∧ register_member_for_class regDB 1 2 = (RegOutcome.sessionFull 1 1, regDB) := by
  have h := register_capacity_guard regDB 99 1
  have h2 := register_capacity_guard regDB 1 2
  refine ⟨h.1 (by decide), ?_⟩
  have h3 := h2.2 ⟨1, 1, 1, some 1, ⟨540, 600⟩, some 1⟩ ⟨1, 2⟩ (by decide) (by decide) (by decide)
  exact h3.trans (by decide)

/-- C5 amended: a duplicate attempt by an already-registered member
fails with AlreadyRegistered (state unchanged) whenever the session is
not already at capacity; when it is full, the capacity check fires
first and the failure is SessionFull instead.  A non-duplicate insert
hitting another storage failure (here: an unknown member id) yields the
distinct generic persistence error, also with state unchanged. -/
theorem duplicate_registration_guard (db : DB) (sid mid : Nat)
    (cs : ClassSessionRow) (c : ClassRow)
    (hcs : db.class_sessions.find? (fun x => x.id == sid) = some cs)
    (hc : db.classes.find? (fun k => k.id == cs.class_id) = some c) :
    (db.class_registrations.any
        (fun r => r.class_session_id == sid && r.member_id == mid) = true →
      regCount db sid < effCap cs c →
      register_member_for_class db sid mid = (RegOutcome.alreadyRegistered, db))
    ∧ (db.class_registrations.any
        (fun r => r.class_session_id == sid && r.member_id == mid) = true →
      effCap cs c ≤ regCount db sid →
      register_member_for_class db sid mid
        = (RegOutcome.sessionFull (regCount db sid) (effCap cs c), db))
    ∧ (db.class_registrations.any
        (fun r => r.class_session_id == sid && r.member_id == mid) = false →
      db.members.all (fun m => !(m.id == mid)) = true →
      regCount db sid < effCap cs c →
      register_member_for_class db sid mid = (RegOutcome.persistenceError, db)) := by
  refine ⟨?_, ?_, ?_⟩
  · intro hdup hcap
    simp [register_member_for_class, hcs, hc, hdup, Nat.not_le.mpr hcap]
  · intro hdup hcap
    simp [register_member_for_class, hcs, hc, hdup, hcap]
  · intro hdup hmem hcap
    simp [register_member_for_class, hcs, hc, hdup, hmem, Nat.not_le.mpr hcap]

/-- Witness for C5 amended at concrete inputs. -/
theorem duplicate_registration_guard_wit :
    register_member_for_class regDB 2 1 = (RegOutcome.alreadyRegistered, regDB)
    ∧ register_member_for_class regDB 1 1 = (RegOutcome.sessionFull 1 1, regDB)
    ∧ register_member_for_class regDB 2 99 = (RegOutcome.persistenceError, regDB) := by
  have h1 := duplicate_registration_guard regDB 2 1
    ⟨2, 1, 1, some 2, ⟨660, 720⟩, some 3⟩ ⟨1, 2⟩ (by decide) (by decide)
  have h2 := duplicate_registration_guard regDB 1 1
    ⟨1, 1, 1, some 1, ⟨540, 600⟩, some 1⟩ ⟨1, 2⟩ (by decide) (by decide)
  have h3 := duplicate_registration_guard regDB 2 99
    ⟨2, 1, 1, some 2, ⟨660, 720⟩, some 3⟩ ⟨1, 2⟩ (by decide) (by decide)
  exact ⟨h1.1 (by decide) (by decide),
         (h2.2.1 (by decide) (by decide)).trans (by decide),
         h3.2.2 (by decide) (by decide) (by decide)⟩

/-- C10: member registration deduplicates on email — an existing email
returns the existing member's id with the store untouched; an unused
email appends exactly one new row and returns its fresh id. -/
theorem register_member_email_dedup (db : DB) (email full_name : String)
    (date_of_birth gender phone : Option String) :
    (∀ m, db.members.find? (fun x => x.email == email) = some m →
      register_member db email full_name date_of_birth gender phone = (m.id, db))
    ∧ (db.members.find? (fun x => x.email == email) = none →
      register_member db email full_name date_of_birth gender phone
        = (db.next_id,
           { db with
               members := db.members ++
                 [⟨db.next_id, email, full_name, date_of_birth, gender, phone⟩],
               next_id := db.next_id + 1 })) := by
  constructor
  · intro m h
    simp [register_member, h]
  · intro h
    simp [register_member, h]

/-- Witness for C10 at concrete inputs. -/
theorem register_member_email_dedup_wit :
    register_member memberDB "ana@club" "Ana Again" none none none = (1, memberDB)
    ∧ (register_member memberDB "bo@club" "Bo" none none none).2.members.length = 2 := by
  have h := register_member_email_dedup memberDB "ana@club" "Ana Again" none none none
  have h2 := register_member_email_dedup memberDB "bo@club" "Bo" none none none
  refine ⟨h.1 ⟨1, "ana@club", "Ana", none, none, none⟩ (by decide), ?_⟩
  rw [h2.2 (by decide)]
  rfl

/-- C1: with the spec-modelled exclusion backstop, the insert path fails
(with rollback, no write) whenever the requested range overlaps an
existing personal or class session of the trainer or of the given room;
the update path does the same while excluding only the session's own
row, so an update that conflicts with nothing but the session's own
prior row — e.g. rewriting its unchanged time range — succeeds. -/
theorem class_session_overlap_guard (db : DB) (class_id trainer_id : Nat)
    (room_id : Option Nat) (s e : Int) (cap : Option Nat) :
    (sessionConflict db none trainer_id room_id ⟨s, e⟩ = true →
      create_or_update_class_session db class_id trainer_id room_id s e cap none
        = (SessionOutcome.dbError, db))
    ∧ (∀ sid cs, db.class_sessions.find? (fun x => x.id == sid) = some cs →
        sessionConflict db (some sid) trainer_id room_id ⟨s, e⟩ = true →
        create_or_update_class_session db class_id trainer_id room_id s e cap (some sid)
          = (SessionOutcome.dbError, db))
    ∧ (∀ sid cs, db.class_sessions.find? (fun x => x.id == sid) = some cs →
        ¬ e < s →
        db.personal_sessions.all (fun ps =>
          !((ps.trainer_id == trainer_id || (room_id.isSome && ps.room_id == room_id))
            && rangeOverlap ps.session_range ⟨s, e⟩)) = true →
        db.class_sessions.all (fun x =>
          x.id == sid
          || !((x.trainer_id == trainer_id || (room_id.isSome && x.room_id == room_id))
            && rangeOverlap x.session_range ⟨s, e⟩)) = true →
        (create_or_update_class_session db class_id trainer_id room_id s e cap (some sid)).1
          = SessionOutcome.updated sid) := by
  refine ⟨?_, ?_, ?_⟩
  · intro hconf
    have hse : s < e := sessionConflict_valid hconf
    have hns : ¬ e < s := by omega
    simp [create_or_update_class_session, hconf, hns]
  · intro sid cs hcs hconf
    have hse : s < e := sessionConflict_valid hconf
    have hns : ¬ e < s := by omega
    simp [create_or_update_class_session, hcs, hconf, hns]
  · intro sid cs hcs hns hp hcl
    have hconf : sessionConflict db (some sid) trainer_id room_id ⟨s, e⟩ = false := by
      have hp' := List.all_eq_true.mp hp
      have hcl' := List.all_eq_true.mp hcl
      simp only [sessionConflict, Bool.or_eq_false_iff]
      constructor
      · rw [List.any_eq_false]
        intro ps hmem
        have hps := hp' ps hmem
        simp only [Bool.not_eq_true'] at hps
        simp [hps]
      · rw [List.any_eq_false]
        intro x hmem
        have hx := hcl' x hmem
        by_cases hid : x.id = sid
        · simp [hid]
        · have hid' : (x.id == sid) = false := by simpa using hid
          rw [hid', Bool.false_or, Bool.not_eq_true'] at hx
          simp [Bool.and_assoc, hx]
    simp [create_or_update_class_session, hcs, hns, hconf]

/-- Witness for C1 at concrete inputs: a conflicting insert, a
conflicting update, and a self-overlapping but otherwise conflict-free
update of session 1 to its own unchanged values. -/
theorem class_session_overlap_guard_wit :
    create_or_update_class_session schedDB 1 1 none 550 610 none none
      = (SessionOutcome.dbError, schedDB)
    ∧ create_or_update_class_session schedDB 1 2 none 540 600 none (some 1)
      = (SessionOutcome.dbError, schedDB)
    ∧ (create_or_update_class_session schedDB 1 1 (some 1) 540 600 none (some 1)).1
      = SessionOutcome.updated 1 := by
  have h1 := class_session_overlap_guard schedDB 1 1 none 550 610 none
  have h2 := class_session_overlap_guard schedDB 1 2 none 540 600 none
  have h3 := class_session_overlap_guard schedDB 1 1 (some 1) 540 600 none
  exact ⟨h1.1 (by decide),
         h2.2.1 1 ⟨1, 1, 1, some 1, ⟨540, 600⟩, none⟩ (by decide) (by decide),
         h3.2.2 1 ⟨1, 1, 1, some 1, ⟨540, 600⟩, none⟩ (by decide) (by decide)
           (by decide) (by decide)⟩

/-- C6 counterexample: starting from an empty schedule, the core's own
operations create session 3 with capacity 2 and register two members —
a committed state satisfying the invariant — and then the update path
lowers the capacity to 1; the update commits and the resulting
committed state has 2 registrations against effective capacity 1. -/
theorem capacity_invariant_not_preserved_cex :
    (create_or_update_class_session capDB0 1 1 (some 1) 540 600 (some 2) none).1
      = SessionOutcome.created 3
    ∧ (register_member_for_class capDB1 3 1).1 = RegOutcome.registered 4
    ∧ (register_member_for_class capDB2 3 2).1 = RegOutcome.registered 5
    ∧ capacityInvariant capDB3 = true
    ∧ (create_or_update_class_session capDB3 1 1 (some 1) 540 600 (some 1) (some 3)).1
        = SessionOutcome.updated 3
    ∧ capacityInvariant
        (create_or_update_class_session capDB3 1 1 (some 1) 540 600 (some 1) (some 3)).2
        = false := by
  decide

/-- Appending one registration for session `sid` raises `regCount` by one
for `sid` and leaves every other session's count unchanged. -/
theorem regCount_append (db : DB) (sid mid x : Nat) :
    regCount { db with
                 class_registrations := db.class_registrations ++ [⟨db.next_id, sid, mid⟩],
                 next_id := db.next_id + 1 } x
      = regCount db x + (if (sid == x) = true then 1 else 0) := by
  by_cases hsx : (sid == x) = true
  · simp [regCount, List.filter_append, hsx]
  · simp [regCount, List.filter_append, hsx]

/-- On a well-formed store no registration references the fresh id the
sequence is about to hand out. -/
theorem regCount_fresh (db : DB) (hwf : dbWellFormed db) :
    regCount db db.next_id = 0 := by
  rw [regCount, List.length_eq_zero, List.filter_eq_nil_iff]
  intro r hr hcontra
  obtain ⟨cs, hcsmem, hcsid⟩ := hwf.2.1 r hr
  have hlt := hwf.2.2 cs hcsmem
  have heq : r.class_session_id = db.next_id := by simpa using hcontra
  omega

/-- Inserting a registration under the capacity guard preserves the
capacity invariant. -/
theorem capacityInvariant_insert_reg (db : DB) (sid mid : Nat)
    (cs : ClassSessionRow) (c : ClassRow)
    (hwf : dbWellFormed db) (hinv : capacityInvariant db = true)
    (hfind : db.class_sessions.find? (fun x => x.id == sid) = some cs)
    (hfindc : db.classes.find? (fun k => k.id == cs.class_id) = some c)
    (hcap : regCount db sid < effCap cs c) :
    capacityInvariant
      { db with
          class_registrations := db.class_registrations ++ [⟨db.next_id, sid, mid⟩],
          next_id := db.next_id + 1 } = true := by
  have hcsmem : cs ∈ db.class_sessions := List.mem_of_find?_eq_some hfind
  have hcsid : cs.id = sid := by simpa using List.find?_some hfind
  simp only [capacityInvariant, List.all_eq_true] at hinv ⊢
  intro x hx
  have hbase := hinv x hx
  rcases hfc : db.classes.find? (fun k => k.id == x.class_id) with _ | c'
  · simp [hfc]
  · simp only [hfc, decide_eq_true_eq] at hbase ⊢
    rw [regCount_append]
    by_cases hxid : x.id = sid
    · have hxcs : x = cs := by
        refine List.inj_on_of_nodup_map hwf.1 hx hcsmem ?_
        simp [hxid, hcsid]
      have hc' : c' = c := by
        rw [hxcs, hfindc] at hfc
        exact (Option.some.inj hfc).symm
      have hcond : (sid == x.id) = true := by simp [hxid]
      rw [hcond, if_pos rfl, hxid, hxcs, hc']
      omega
    · have hne : (sid == x.id) = false := beq_eq_false_iff_ne.mpr (fun h => hxid h.symm)
      rw [hne]
      simpa using hbase

/-- Creating a class session (insert mode) preserves the capacity
invariant on a well-formed store: the new session starts with zero
registrations. -/
theorem capacityInvariant_insert_session (db : DB) (class_id trainer_id : Nat)
    (room_id : Option Nat) (s e : Int) (cap : Option Nat)
    (hwf : dbWellFormed db) (hinv : capacityInvariant db = true) :
    capacityInvariant
      { db with
          class_sessions := db.class_sessions ++
            [⟨db.next_id, class_id, trainer_id, room_id, ⟨s, e⟩, cap⟩],
          next_id := db.next_id + 1 } = true := by
  have hzero := regCount_fresh db hwf
  simp only [capacityInvariant, List.all_eq_true] at hinv ⊢
  intro x hx
  rcases List.mem_append.mp hx with hold | hnew
  · have hbase := hinv x hold
    rcases hfc : db.classes.find? (fun k => k.id == x.class_id) with _ | c'
    · simp [hfc]
    · rw [hfc] at hbase
      simp only [hfc, decide_eq_true_eq] at hbase ⊢
      simpa [regCount] using hbase
  · have hxeq : x = ⟨db.next_id, class_id, trainer_id, room_id, ⟨s, e⟩, cap⟩ := by
      simpa using hnew
    subst hxeq
    rcases hfc : db.classes.find? (fun k => k.id == class_id) with _ | c'
    · simp [hfc]
    · simp only [hfc, decide_eq_true_eq]
      have h0 : regCount { db with
          class_sessions := db.class_sessions ++
            [⟨db.next_id, class_id, trainer_id, room_id, ⟨s, e⟩, cap⟩],
          next_id := db.next_id + 1 } db.next_id = 0 := by
        simp only [regCount] at hzero ⊢
        exact hzero
      simp [h0]

/-- C6 amended: on a well-formed store the capacity invariant is
preserved by `register_member_for_class` (for every input) and by the
insert mode of `create_or_update_class_session`; the invariant is NOT
preserved by the update mode, which can lower a session's capacity
below its current registration count (see the counterexample). -/
theorem capacity_invariant_preserved_by_register_and_create
    (db : DB) (sid mid : Nat) (hwf : dbWellFormed db)
    (hinv : capacityInvariant db = true) :
    capacityInvariant (register_member_for_class db sid mid).2 = true
    ∧ ∀ class_id trainer_id room_id s e cap,
        capacityInvariant
          (create_or_update_class_session db class_id trainer_id room_id s e cap none).2
          = true := by
  constructor
  · simp only [register_member_for_class]
    split
    · exact hinv
    next cs hfind =>
      split
      · exact hinv
      next c hfindc =>
        split
        · exact hinv
        next hcap =>
          split
          · exact hinv
          next hdup =>
            split
            · exact hinv
            next hmem =>
              exact capacityInvariant_insert_reg db sid mid cs c hwf hinv hfind hfindc
                (by omega)
  · intro class_id trainer_id room_id s e cap
    simp only [create_or_update_class_session]
    split
    · exact hinv
    split
    · exact hinv
    exact capacityInvariant_insert_session db class_id trainer_id room_id s e cap hwf hinv

/-- Witness for C6 amended at concrete inputs. -/
theorem capacity_invariant_preservation_wit :
    dbWellFormed regDB
    ∧ capacityInvariant regDB = true
    ∧ capacityInvariant (register_member_for_class regDB 2 2).2 = true
    ∧ capacityInvariant
        (create_or_update_class_session regDB 1 3 none 900 960 (some 2) none).2 = true := by
  have h := capacity_invariant_preserved_by_register_and_create regDB 2 2 (by decide) (by decide)
  exact ⟨by decide, by decide, h.1, h.2 1 3 none 900 960 (some 2)⟩

end ClubMgmt
